import Mathlib

/-!
# Verification of the task-assistant-core triage engine

Shallow embedding of the classification-and-self-healing decision engine:
the config normalizer (`src/config.ts`), the track classifier
(`src/issueClassifier.ts`), the milestone resolver (`src/milestoneRules.ts`),
the milestone manager (`src/milestoneManager.ts`), the error taxonomy
(`src/errors.ts`) and the top-level `run` pipeline (`src/index.ts`).

External collaborators (the GitHub client, the telemetry file writer) are
modelled as an explicit environment record holding the outcome of each remote
call; the engine code is translated statement by statement from the TypeScript
sources.
-/

/-- JS truthiness helper for an optional boolean field (`undefined` and
`false` are falsy). -/
def optBoolTruthy : Option Bool → Bool
  | some b => b
  | none => false

/-- JS truthiness helper for an optional string field (`undefined`, `null`
and the empty string are falsy). -/
def optStrTruthy : Option String → Bool
  | some s => s ≠ ""
  | none => false

/-- `IssueClassification` from `src/types.ts`: the record produced by
`classifyIssue` and extended in place by the orchestrator. -/
structure IssueClassification where
  track : Option String
  trackLabelToApply : Option String
  violations : List String
  actions : List String
deriving Repr, DecidableEq

/-- `selfHealing` section of `TaskAssistantConfig` (`src/config.ts`); every
sub-field is optional in the TypeScript interface, and `validateSelfHealing`
can in fact leave sub-flags unset. -/
structure SelfHealingConfig where
  enabled : Option Bool := none
  fixMissingTrack : Option Bool := none
  fixMissingMilestone : Option Bool := none
deriving Repr, DecidableEq

/-- `telemetry` section of `TaskAssistantConfig` (`src/config.ts`). -/
structure TelemetryConfig where
  enabled : Option Bool := none
  path : Option String := none
deriving Repr, DecidableEq

/-- `MilestoneRule` from `src/milestoneRules.ts` (`{title: string}`). -/
structure MilestoneRule where
  title : String
deriving Repr, DecidableEq

/-- The engine configuration as the union of the fields the components read:
`tracks`, `milestone_rules`, `selfHealing`, `telemetry` are produced by
`loadConfig` (`src/config.ts`); `milestones` is the field `inferMilestoneTitle`
(`src/milestoneRules.ts`) reads — `loadConfig` never sets it, which the
embedding keeps faithfully.  Objects are insertion-ordered in JS, hence
association lists. -/
structure TaskAssistantConfig where
  tracks : Option (List (String × List String)) := none
  milestone_rules : Option (List (String × String)) := none
  selfHealing : Option SelfHealingConfig := none
  telemetry : Option TelemetryConfig := none
  milestones : Option (List (String × MilestoneRule)) := none
deriving Repr, DecidableEq

/-- The issue state the pipeline reads from the event payload in
`src/index.ts` (`issue.milestone?.title ?? null` is modelled as
`milestoneTitle : Option String`; label objects are already flattened to
their names, as done by the `labels` mapping at the top of `run`). -/
structure Issue where
  id : Nat
  number : Nat
  title : String
  state : String
  labels : List String
  milestoneTitle : Option String
  created_at : String
  updated_at : String
deriving Repr, DecidableEq

/-- Substring containment on character lists: `pat` occurs contiguously in
`hay` (the behaviour of JS `String.prototype.includes`). -/
def charsContains : List Char → List Char → Bool
  | [], pat => pat.isEmpty
  | c :: t, pat => pat.isPrefixOf (c :: t) || charsContains t pat

/-- Case-insensitive-substring primitive of the classifier:
`label.includes(pattern)` on strings, via the character lists. -/
def strIncludes (haystack pat : String) : Bool :=
  charsContains haystack.data pat.data

/-- `toLowerCase` on a string, mapped over its characters (ASCII case
folding, as `String.toLower` does, but kernel-reducible). -/
def strToLower (s : String) : String :=
  String.mk (s.data.map Char.toLower)

/-- One configured track matches when any of its patterns, lowercased, is a
substring of any (already lowercased) label — the `patterns.some(... )`
expression of `classifyIssue` (`src/issueClassifier.ts`). -/
def trackMatches (normalizedLabels : List String) (patterns : List String) : Bool :=
  patterns.any fun pattern =>
    normalizedLabels.any fun label => strIncludes label (strToLower pattern)

/-- `classifyIssue` from `src/issueClassifier.ts`.  The `for … of
Object.entries(tracks)` loop with `break` on first match is `List.find?`;
the final `if (detectedTrack)` is a JS truthiness test, so a detected track
named `""` falls into the else branch. -/
def classifyIssue (config : TaskAssistantConfig) (labels : List String) :
    IssueClassification :=
  let tracks := config.tracks.getD []
  let normalizedLabels := labels.map strToLower
  let detectedTrack : Option String :=
    (tracks.find? fun t => trackMatches normalizedLabels t.2).map (·.1)
  match detectedTrack with
  | some t =>
    if t ≠ "" then
      { track := some t, trackLabelToApply := some ("track:" ++ t),
        violations := [], actions := [] }
    else
      { track := none, trackLabelToApply := none,
        violations := ["no-track-matched"], actions := [] }
  | none =>
      { track := none, trackLabelToApply := none,
        violations := ["no-track-matched"], actions := [] }

/-- `inferMilestoneTitle` from `src/milestoneRules.ts`.  Note that it reads
`config.milestones` (a map to `{title}` records), not the normalizer's
`milestone_rules` field; `if (!track)` is a truthiness test, so the empty
track name also yields `null`. -/
def inferMilestoneTitle (config : TaskAssistantConfig) (track : Option String) :
    Option String :=
  match track with
  | none => none
  | some t =>
    if t = "" then none
    else
      let milestoneRules := config.milestones.getD []
      match milestoneRules.lookup t with
      | none => none
      | some rule => some rule.title

/-- A parsed configuration document value (the output of the YAML reader
collaborator): the loosely-typed input of `loadConfig` (`src/config.ts`). -/
inductive ConfigValue where
  | null : ConfigValue
  | bool : Bool → ConfigValue
  | num : Int → ConfigValue
  | str : String → ConfigValue
  | arr : List ConfigValue → ConfigValue
  | obj : List (String × ConfigValue) → ConfigValue

/-- JS truthiness of a document value (`null`, `false`, `0` and `""` are
falsy; arrays and objects are always truthy). -/
def jsTruthy : ConfigValue → Bool
  | .null => false
  | .bool b => b
  | .num n => n ≠ 0
  | .str s => s ≠ ""
  | .arr _ => true
  | .obj _ => true

/-- JS `typeof v === "object"` for a document value (`typeof null` is also
`"object"`, and arrays are objects). -/
def jsIsObjectType : ConfigValue → Bool
  | .null => true
  | .bool _ => false
  | .num _ => false
  | .str _ => false
  | .arr _ => true
  | .obj _ => true

/-- JS `Array.isArray`. -/
def jsIsArray : ConfigValue → Bool
  | .arr _ => true
  | _ => false

/-- Last-assignment-wins lookup in a built-up JS object modelled as an
association list of assignments. -/
def objGet (fields : List (String × ConfigValue)) (key : String) :
    Option ConfigValue :=
  fields.reverse.lookup key

/-- JS property access `v.key` on an arbitrary value: defined for objects,
`undefined` (here `none`) everywhere else. -/
def fieldGet (v : ConfigValue) (key : String) : Option ConfigValue :=
  match v with
  | .obj fields => objGet fields key
  | _ => none

/-- `Object.entries` on the values that pass the `typeof === "object"` guard
of `loadConfig`: object fields, or index-keyed array elements. -/
def entriesOf : ConfigValue → List (String × ConfigValue)
  | .obj fields => fields
  | .arr xs => xs.enum.map fun p => (toString p.1, p.2)
  | _ => []

/-- `normalizeKey` from `src/config.ts`: a global replace of hyphens by
underscores — only hyphens are rewritten, so camelCase variants are left
unchanged. -/
def normalizeKey (key : String) : String :=
  String.mk (key.data.map fun c => if c = '-' then '_' else c)

/-- `validateTracks` from `src/config.ts`: `undefined` for a missing, `null`
or non-object (or array) section; otherwise each entry is kept only when its
value is an array of strings. -/
def validateTracks (tracks : Option ConfigValue) :
    Option (List (String × List String)) :=
  match tracks with
  | none => none
  | some .null => none
  | some v =>
    if ¬ jsIsObjectType v ∨ jsIsArray v then none
    else some <| (entriesOf v).filterMap fun kv =>
      match kv.2 with
      | .arr ps =>
        if ps.all (fun p => match p with | .str _ => true | _ => false) then
          some (kv.1, ps.filterMap fun p =>
            match p with | .str s => some s | _ => none)
        else none
      | _ => none

/-- `validateMilestoneRules` from `src/config.ts`: per-entry, only string
values are kept. -/
def validateMilestoneRules (m : Option ConfigValue) :
    Option (List (String × String)) :=
  match m with
  | none => none
  | some .null => none
  | some v =>
    if ¬ jsIsObjectType v ∨ jsIsArray v then none
    else some <| (entriesOf v).filterMap fun kv =>
      match kv.2 with
      | .str s => some (kv.1, s)
      | _ => none

/-- `validateSelfHealing` from `src/config.ts`.  A falsy section yields the
empty record `{}` (every sub-flag `undefined`); `enabled` defaults to `false`
when not a boolean; each `fix_missing_*` sub-flag is left *unset* when present
but neither `null` nor boolean, and otherwise defaults to `false`. -/
def validateSelfHealing (s : Option ConfigValue) : SelfHealingConfig :=
  match s with
  | none => {}
  | some v =>
    if ¬ jsTruthy v then {}
    else
      let enabled := match fieldGet v "enabled" with
        | some (.bool b) => b
        | _ => false
      let fixMissingTrack : Option Bool :=
        match fieldGet v "fix_missing_track" with
        | some (.bool b) => some b
        | some .null => some false
        | some _ => none
        | none => some false
      let fixMissingMilestone : Option Bool :=
        match fieldGet v "fix_missing_milestone" with
        | some (.bool b) => some b
        | some .null => some false
        | some _ => none
        | none => some false
      { enabled := some enabled, fixMissingTrack := fixMissingTrack,
        fixMissingMilestone := fixMissingMilestone }

/-- `validateTelemetry` from `src/config.ts`: a falsy section yields the
defaults `{enabled: true, path: "telemetry"}`; otherwise `enabled` defaults to
`true` on type mismatch and `path` falls back to `"telemetry"` unless it is a
non-empty string. -/
def validateTelemetry (t : Option ConfigValue) : TelemetryConfig :=
  match t with
  | none => { enabled := some true, path := some "telemetry" }
  | some v =>
    if ¬ jsTruthy v then { enabled := some true, path := some "telemetry" }
    else
      let enabled := match fieldGet v "enabled" with
        | some (.bool b) => b
        | _ => true
      let path := match fieldGet v "path" with
        | some (.str s) => if s = "" then "telemetry" else s
        | _ => "telemetry"
      { enabled := some enabled, path := some path }

/-- `loadConfig` from `src/config.ts`, from the point where the document has
been parsed (the file read and the YAML parse are external collaborators; a
read/parse failure lands in the same `return {}` branch as a falsy or
non-object document).  Keys are normalized with `normalizeKey` and the four
known sections validated; every other key is ignored.  `milestones` is never
assigned. -/
def loadConfigDoc (doc : ConfigValue) : TaskAssistantConfig :=
  if ¬ jsTruthy doc ∨ ¬ jsIsObjectType doc then {}
  else
    let normalized := (entriesOf doc).map fun kv => (normalizeKey kv.1, kv.2)
    { tracks := validateTracks (objGet normalized "tracks"),
      milestone_rules := validateMilestoneRules (objGet normalized "milestone_rules"),
      selfHealing := some (validateSelfHealing (objGet normalized "self_healing")),
      telemetry := some (validateTelemetry (objGet normalized "telemetry")),
      milestones := none }

/-- The external (non-engine) failure attached as `cause` to a wrapped error:
a thrown JS value with the fields `toDisplay` inspects (`instanceof Error`,
`.message`, `.stack`). -/
structure ExternalFailure where
  isError : Bool
  message : String
  stack : String
deriving Repr, DecidableEq

/-- `TaskAssistantError` from `src/errors.ts`: severity tag, human message,
optional causal error, optional structured detail map.  The severity is one
of the five literal strings of `TaskAssistantErrorSeverity`; details values
are modelled as strings. -/
structure TaskAssistantError where
  severity : String
  message : String
  cause : Option ExternalFailure := none
  details : Option (List (String × String)) := none
deriving Repr, DecidableEq

/-- `githubApiError` from `src/errors.ts`: wraps a failure with severity
`"github-api"` and the original cause attached. -/
def githubApiError (message : String) (cause : Option ExternalFailure)
    (details : Option (List (String × String))) : TaskAssistantError :=
  { severity := "github-api", message := message, cause := cause,
    details := details }

/-- Model of `JSON.stringify(s)` for a plain string value. -/
def jsonQuote (s : String) : String := "\"" ++ s ++ "\""

/-- Model of `JSON.stringify(details, null, 2)` for a string-valued detail
map (two-space indentation, one field per line). -/
def jsonStringifyDetails (d : List (String × String)) : String :=
  match d with
  | [] => "\x7b\x7d"
  | _ => "\x7b\n"
      ++ String.intercalate ",\n"
          (d.map fun kv => "  " ++ jsonQuote kv.1 ++ ": " ++ jsonQuote kv.2)
      ++ "\n\x7d"

/-- `TaskAssistantError.toDisplay` from `src/errors.ts`: severity (upper-cased)
and message, the JSON-rendered detail map when details are present, and the
cause's message and stack only when `debug` is set and the cause is an
`Error`. -/
def toDisplay (e : TaskAssistantError) (debug : Bool) : String :=
  let out := "[" ++ e.severity.toUpper ++ "] " ++ e.message
  let out := match e.details with
    | some d => out ++ "\nDetails: " ++ jsonStringifyDetails d
    | none => out
  if debug then
    match e.cause with
    | some c =>
      if c.isError then out ++ "\nCause: " ++ c.message ++ "\nStack: " ++ c.stack
      else out
    | none => out
  else out

/-- Milestone summary returned by the list collaborator
(`{number, title}`, §6). -/
structure Milestone where
  number : Nat
  title : String
deriving Repr, DecidableEq

/-- `RepoRef` from `src/milestoneManager.ts`. -/
structure RepoRef where
  owner : String
  repo : String
deriving Repr, DecidableEq

/-- The remote calls the engine can issue within one run, in the order they
are recorded. -/
inductive RemoteCall where
  | addLabels (owner repo : String) (issueNumber : Nat) (labels : List String)
  | listMilestones (owner repo : String)
  | createMilestone (owner repo title : String)
  | updateIssueMilestone (owner repo : String) (issueNumber milestoneNumber : Nat)
deriving Repr, DecidableEq

deriving instance DecidableEq for Except

/-- The external-collaborator environment of one run: the outcome each remote
operation would produce if invoked (§6 contracts).  `writeTelemetryResult` is
what the telemetry persistence collaborator returns (a falsy value when the
best-effort write failed). -/
structure GhEnv where
  addLabelsResult : Except ExternalFailure Unit
  listMilestonesResult : Except ExternalFailure (List Milestone)
  createMilestoneResult : Except ExternalFailure Nat
  updateIssueResult : Except ExternalFailure Unit
  writeTelemetryResult : Option String
deriving Repr, DecidableEq

/-- `listMilestones` from `src/milestoneManager.ts`: the raw list call, its
failure wrapped by `githubApiError` with the original cause. -/
def listMilestonesM (ref : RepoRef) (env : GhEnv) :
    List RemoteCall × Except TaskAssistantError (List Milestone) :=
  ([RemoteCall.listMilestones ref.owner ref.repo],
   match env.listMilestonesResult with
   | .ok ms => .ok ms
   | .error e => .error (githubApiError
      ("Failed to list milestones for " ++ ref.owner ++ "/" ++ ref.repo)
      (some e) none))

/-- `findMilestoneByTitle` from `src/milestoneManager.ts`, applied to the
milestones the list call returned: first exact title match. -/
def findMilestoneByTitle (milestones : List Milestone) (title : String) :
    Option Nat :=
  (milestones.find? fun m => m.title = title).map (·.number)

/-- The create half of `ensureMilestone` (`src/milestoneManager.ts`): the raw
create call, its failure wrapped by `githubApiError` with the original
cause. -/
def createMilestoneM (ref : RepoRef) (title : String) (env : GhEnv) :
    List RemoteCall × Except TaskAssistantError Nat :=
  ([RemoteCall.createMilestone ref.owner ref.repo title],
   match env.createMilestoneResult with
   | .ok n => .ok n
   | .error e => .error (githubApiError
      ("Failed to create milestone '" ++ title ++ "'") (some e) none))

/-- `ensureMilestone` from `src/milestoneManager.ts`: look up by exact title
among open milestones; create only when absent. -/
def ensureMilestoneM (ref : RepoRef) (title : String) (env : GhEnv) :
    List RemoteCall × Except TaskAssistantError Nat :=
  let lres := listMilestonesM ref env
  match lres.2 with
  | .error err => (lres.1, .error err)
  | .ok ms =>
    match findMilestoneByTitle ms title with
    | some n => (lres.1, .ok n)
    | none =>
      let cres := createMilestoneM ref title env
      (lres.1 ++ cres.1, cres.2)

/-- `attachMilestoneToIssue` from `src/milestoneManager.ts`: the raw issue
update call, its failure wrapped by `githubApiError` with the original
cause. -/
def attachMilestoneToIssueM (ref : RepoRef) (issueNumber milestoneNumber : Nat)
    (env : GhEnv) : List RemoteCall × Except TaskAssistantError Unit :=
  ([RemoteCall.updateIssueMilestone ref.owner ref.repo issueNumber milestoneNumber],
   match env.updateIssueResult with
   | .ok _ => .ok ()
   | .error e => .error (githubApiError
      ("Failed to attach milestone #" ++ toString milestoneNumber
        ++ " to issue #" ++ toString issueNumber) (some e) none))

/-- Modelled from the spec: the `addLabels` wrapper lives in
`src/githubClient.ts`, which is not among the provided sources; §6 specifies
that each external collaborator failure is wrapped as an api-severity error
with the original cause attached, mirroring the wrappers of
`src/milestoneManager.ts`. -/
def ghAddLabelsM (owner repo : String) (issueNumber : Nat)
    (labels : List String) (env : GhEnv) :
    List RemoteCall × Except TaskAssistantError Unit :=
  ([RemoteCall.addLabels owner repo issueNumber labels],
   match env.addLabelsResult with
   | .ok _ => .ok ()
   | .error e => .error (githubApiError
      ("Failed to add labels to issue #" ++ toString issueNumber)
      (some e) none))

/-- `TelemetryRepositoryInfo` from `src/types.ts`. -/
structure TelemetryRepositoryInfo where
  owner : String
  repo : String
deriving Repr, DecidableEq

/-- `TelemetryIssueInfo` from `src/types.ts`. -/
structure TelemetryIssueInfo where
  id : Nat
  number : Nat
  title : String
  state : String
  labels : List String
  milestone : Option String
  created_at : String
  updated_at : String
deriving Repr, DecidableEq

/-- `TelemetryPayload` from `src/types.ts` (the `issue`, `classification` and
`actions` fields are optional in the interface; `run` always fills them). -/
structure TelemetryPayload where
  version : Nat
  event : String
  generated_at : String
  repository : TelemetryRepositoryInfo
  issue : Option TelemetryIssueInfo := none
  classification : Option IssueClassification := none
  actions : Option (List String) := none
deriving Repr, DecidableEq

/-- `TaskAssistantResult` from `src/types.ts`: the run's structured output. -/
structure TaskAssistantResult where
  track : Option String
  actions : List String
  milestone : Option String
  telemetryFile : Option String
deriving Repr, DecidableEq

/-- Observable outcome of one `run` invocation (`src/index.ts`): the remote
calls issued in order, the final classification state, the final milestone
title variable, the telemetry payload handed to the persistence collaborator
(if any), the emitted result (if the run completed), and the error caught at
the top-level boundary (if it failed). -/
structure RunOutput where
  calls : List RemoteCall
  classification : IssueClassification
  finalMilestoneTitle : Option String
  telemetry : Option TelemetryPayload
  result : Option TaskAssistantResult
  error : Option TaskAssistantError
deriving Repr, DecidableEq

/-- The fallback self-healing record the `run` pipeline substitutes when
`config.selfHealing` is `undefined` (`src/index.ts`). -/
def defaultSelfHealing : SelfHealingConfig :=
  { enabled := some false, fixMissingTrack := some false,
    fixMissingMilestone := some false }

/-- The top-level `catch` exit of `run` (`src/index.ts`): no telemetry
payload was assembled, no result is emitted, the caught error is surfaced. -/
def failRun (calls : List RemoteCall) (cls : IssueClassification)
    (finalM : Option String) (err : TaskAssistantError) : RunOutput :=
  { calls := calls, classification := cls, finalMilestoneTitle := finalM,
    telemetry := none, result := none, error := some err }

/-- Steps 3–4 of `run` (`src/index.ts`): assemble and hand off the telemetry
payload when telemetry is enabled by both the config and the environment, then
emit the structured result. -/
def finishRun (config : TaskAssistantConfig) (issue : Issue) (env : GhEnv)
    (envTelemetryEnabled : Bool) (generatedAt owner repo : String)
    (calls : List RemoteCall) (cls : IssueClassification)
    (finalM : Option String) : RunOutput :=
  let telemetryEnabled :=
    (match config.telemetry with
     | some t => t.enabled.getD true
     | none => true) && envTelemetryEnabled
  let handedPayload : Option TelemetryPayload :=
    if telemetryEnabled then
      some
        { version := 1, event := "issue_event", generated_at := generatedAt,
          repository := { owner := owner, repo := repo },
          issue := some
            { id := issue.id, number := issue.number, title := issue.title,
              state := issue.state, labels := issue.labels, milestone := finalM,
              created_at := issue.created_at, updated_at := issue.updated_at },
          classification := some cls,
          actions := some cls.actions }
    else none
  let telemetryFile : Option String :=
    if telemetryEnabled then
      match env.writeTelemetryResult with
      | some s => if s = "" then none else some s
      | none => none
    else none
  { calls := calls, classification := cls, finalMilestoneTitle := finalM,
    telemetry := handedPayload,
    result := some
      { track := cls.track, actions := cls.actions, milestone := finalM,
        telemetryFile := telemetryFile },
    error := none }

/-- Step 2b of `run` (`src/index.ts`), given that self-healing milestone
repair is switched on: infer the desired title; when it is truthy and differs
from the current one, ensure the milestone exists and attach it, recording
the `set-milestone` action; any wrapped API error aborts to the top-level
catch. -/
def milestoneStep (config : TaskAssistantConfig) (issue : Issue) (env : GhEnv)
    (envTelemetryEnabled : Bool) (generatedAt owner repo : String)
    (calls : List RemoteCall) (cls : IssueClassification)
    (finalM : Option String) : RunOutput :=
  match inferMilestoneTitle config cls.track with
  | some d =>
    if d ≠ "" ∧ some d ≠ finalM then
      let ref : RepoRef := { owner := owner, repo := repo }
      let ensure := ensureMilestoneM ref d env
      match ensure.2 with
      | .error err => failRun (calls ++ ensure.1) cls finalM err
      | .ok mnum =>
        let attach := attachMilestoneToIssueM ref issue.number mnum env
        match attach.2 with
        | .error err => failRun (calls ++ ensure.1 ++ attach.1) cls finalM err
        | .ok _ =>
          finishRun config issue env envTelemetryEnabled generatedAt owner repo
            (calls ++ ensure.1 ++ attach.1)
            { cls with actions := cls.actions ++ ["set-milestone:" ++ d] }
            (some d)
    else
      finishRun config issue env envTelemetryEnabled generatedAt owner repo
        calls cls finalM
  | none =>
    finishRun config issue env envTelemetryEnabled generatedAt owner repo
      calls cls finalM

/-- The tail of `run` (`src/index.ts`) after the track-label repair step:
initialize `finalMilestoneTitle` from the issue, run milestone enforcement
when enabled, then telemetry and result. -/
def runAfterTrackFix (config : TaskAssistantConfig) (issue : Issue)
    (env : GhEnv) (envTelemetryEnabled : Bool)
    (generatedAt owner repo : String) (calls : List RemoteCall)
    (cls : IssueClassification) : RunOutput :=
  let selfHealing := config.selfHealing.getD defaultSelfHealing
  let finalMilestoneTitle := issue.milestoneTitle
  if optBoolTruthy selfHealing.enabled
      && optBoolTruthy selfHealing.fixMissingMilestone then
    milestoneStep config issue env envTelemetryEnabled generatedAt owner repo
      calls cls finalMilestoneTitle
  else
    finishRun config issue env envTelemetryEnabled generatedAt owner repo
      calls cls finalMilestoneTitle

/-- `run` from `src/index.ts`, with the event context (`owner`, `repo`, the
issue), the environment telemetry flag and the `generated_at` timestamp
passed in explicitly: classify, apply the track label when self-healing and
`fixMissingTrack` are on and a label is pending, enforce the milestone,
assemble telemetry, emit the result; any error raised by a remote call step
falls through to the top-level catch (`failRun`). -/
def runModel (config : TaskAssistantConfig) (issue : Issue) (env : GhEnv)
    (envTelemetryEnabled : Bool) (generatedAt owner repo : String) :
    RunOutput :=
  let classification := classifyIssue config issue.labels
  let selfHealing := config.selfHealing.getD defaultSelfHealing
  if optBoolTruthy selfHealing.enabled
      && optBoolTruthy selfHealing.fixMissingTrack
      && optStrTruthy classification.trackLabelToApply then
    let trackLabel := classification.trackLabelToApply.getD ""
    let applyCall := ghAddLabelsM owner repo issue.number [trackLabel] env
    match applyCall.2 with
    | .error err =>
      failRun applyCall.1 classification issue.milestoneTitle err
    | .ok _ =>
      runAfterTrackFix config issue env envTelemetryEnabled generatedAt owner
        repo applyCall.1
        { classification with
          actions := classification.actions
            ++ ["apply-track-label:" ++ trackLabel] }
  else
    runAfterTrackFix config issue env envTelemetryEnabled generatedAt owner
      repo [] classification

/-- The §8 scenario-A configuration document, with its camelCase keys as
given. -/
def scenarioADoc : ConfigValue :=
  .obj [
    ("tracks", .obj [("bug", .arr [.str "bug"])]),
    ("milestoneRules", .obj [("bug", .str "Bugfix Sprint")]),
    ("selfHealing", .obj [("enabled", .bool true),
      ("fixMissingTrack", .bool true), ("fixMissingMilestone", .bool true)])]

/-- The §8 scenario-A issue: labels `["needs-triage", "Bug"]`, no current
milestone. -/
def scenarioAIssue : Issue :=
  { id := 1, number := 42, title := "Crash on startup", state := "open",
    labels := ["needs-triage", "Bug"], milestoneTitle := none,
    created_at := "2026-01-01T00:00:00Z", updated_at := "2026-01-02T00:00:00Z" }

/-- An environment in which every remote call succeeds. -/
def envAllOk : GhEnv :=
  { addLabelsResult := .ok (), listMilestonesResult := .ok [],
    createMilestoneResult := .ok 7, updateIssueResult := .ok (),
    writeTelemetryResult := some "telemetry/issue-42.json" }

/-- A concrete external failure used as the cause of wrapped errors. -/
def exBoom : ExternalFailure :=
  { isError := true, message := "boom", stack := "trace" }

/-- An environment in which the milestone list call fails and everything else
would succeed. -/
def envListFail : GhEnv :=
  { addLabelsResult := .ok (), listMilestonesResult := .error exBoom,
    createMilestoneResult := .ok 7, updateIssueResult := .ok (),
    writeTelemetryResult := some "telemetry/issue-42.json" }

/-- An environment in which every remote call fails. -/
def envAllFail : GhEnv :=
  { addLabelsResult := .error exBoom, listMilestonesResult := .error exBoom,
    createMilestoneResult := .error exBoom, updateIssueResult := .error exBoom,
    writeTelemetryResult := none }

/-- A configuration that reaches the milestone-repair remote calls: milestone
self-healing on, and a `milestones` rule for the matched track. -/
def cfgMilestoneRepair : TaskAssistantConfig :=
  { tracks := some [("bug", ["bug"])],
    selfHealing := some
      { enabled := some true, fixMissingTrack := some false,
        fixMissingMilestone := some true },
    milestones := some [("bug", { title := "Bugfix Sprint" })] }

theorem finishRun_fields (config : TaskAssistantConfig) (issue : Issue)
    (env : GhEnv) (te : Bool) (gAt owner repo : String)
    (calls : List RemoteCall) (cls : IssueClassification)
    (finalM : Option String) :
    (finishRun config issue env te gAt owner repo calls cls finalM).calls = calls ∧
    (finishRun config issue env te gAt owner repo calls cls finalM).classification = cls ∧
    (finishRun config issue env te gAt owner repo calls cls finalM).finalMilestoneTitle = finalM ∧
    (finishRun config issue env te gAt owner repo calls cls finalM).error = none := by
  exact ⟨rfl, rfl, rfl, rfl⟩

theorem failRun_fields (calls : List RemoteCall) (cls : IssueClassification)
    (finalM : Option String) (err : TaskAssistantError) :
    (failRun calls cls finalM err).telemetry = none ∧
    (failRun calls cls finalM err).result = none ∧
    (failRun calls cls finalM err).error = some err := by
  simp [failRun]

/-- C7: for every configuration whose tracks mapping is empty or absent, and
for every label list, classification yields `track = null`, a violations list
containing `"no-track-matched"`, and `trackLabelToApply = null`. -/
theorem classify_no_tracks (config : TaskAssistantConfig)
    (labels : List String)
    (h : config.tracks = none ∨ config.tracks = some []) :
    (classifyIssue config labels).track = none ∧
    "no-track-matched" ∈ (classifyIssue config labels).violations ∧
    (classifyIssue config labels).trackLabelToApply = none := by
  rcases h with h | h <;> simp [classifyIssue, h]

theorem classify_no_tracks_witness :
    ({} : TaskAssistantConfig).tracks = none ∧
    (classifyIssue {} ["needs-triage"]).track = none ∧
    "no-track-matched" ∈ (classifyIssue {} ["needs-triage"]).violations ∧
    (classifyIssue {} ["needs-triage"]).trackLabelToApply = none :=
  ⟨rfl, classify_no_tracks {} ["needs-triage"] (Or.inl rfl)⟩

/-- C4 (amended): if some pattern of the first declared track is a
case-insensitive substring of some label and that track's name is non-empty,
classification returns that track and sets `trackLabelToApply` to
`"track:" ++ name`; later-declared tracks are never selected.  (The
non-emptiness condition is forced by the JS truthiness test
`if (detectedTrack)`.) -/
theorem classify_first_match (config : TaskAssistantConfig)
    (labels : List String) (name : String) (patterns : List String)
    (rest : List (String × List String))
    (hconf : config.tracks = some ((name, patterns) :: rest))
    (hmatch : trackMatches (labels.map strToLower) patterns = true)
    (hname : name ≠ "") :
    (classifyIssue config labels).track = some name ∧
    (classifyIssue config labels).trackLabelToApply =
      some ("track:" ++ name) := by
  simp [classifyIssue, hconf, List.find?_cons, hmatch, hname]

theorem classify_first_match_witness :
    trackMatches (["Bug"].map strToLower) ["bug"] = true ∧
    (classifyIssue
        { tracks := some [("bug", ["bug"]), ("feature", ["bug"])] }
        ["Bug"]).track = some "bug" ∧
    (classifyIssue
        { tracks := some [("bug", ["bug"]), ("feature", ["bug"])] }
        ["Bug"]).trackLabelToApply = some ("track:" ++ "bug") :=
  ⟨by decide,
   classify_first_match
     { tracks := some [("bug", ["bug"]), ("feature", ["bug"])] }
     ["Bug"] "bug" ["bug"] [("feature", ["bug"])] rfl (by decide) (by decide)⟩

/-- C4 counterexample: with the single (first) track named `""` whose pattern
`"bug"` matches the label `"bug"`, the claimed conclusion
`track = that track` fails — `classifyIssue` returns `track = null` because
the detected empty name is JS-falsy. -/
theorem classify_first_match_counterexample :
    trackMatches (["bug"].map strToLower) ["bug"] = true ∧
    (classifyIssue { tracks := some [("", ["bug"])] } ["bug"]).track =
      none := by
  constructor <;> decide

/-- C10: for every configuration and label list, the classifier's output has
an empty `actions` list, `trackLabelToApply` non-null exactly when `track`
is non-null, and `violations` exactly `["no-track-matched"]` when `track` is
null and `[]` otherwise; a track with an empty pattern list never matches,
and an empty label list always yields `track = null`. -/
theorem classify_invariants (config : TaskAssistantConfig)
    (labels : List String) :
    (classifyIssue config labels).actions = [] ∧
    ((classifyIssue config labels).trackLabelToApply.isSome ↔
      (classifyIssue config labels).track.isSome) ∧
    (classifyIssue config labels).violations =
      (if (classifyIssue config labels).track.isSome then []
       else ["no-track-matched"]) ∧
    (∀ normalizedLabels : List String,
      trackMatches normalizedLabels [] = false) ∧
    (labels = [] → (classifyIssue config labels).track = none) := by
  have hmatches_nil : ∀ nl : List String, trackMatches nl [] = false := by
    intro nl; simp [trackMatches]
  have hempty : labels = [] →
      ((config.tracks.getD []).find? fun t =>
        trackMatches (labels.map strToLower) t.2) = none := by
    intro h
    subst h
    rw [List.find?_eq_none]
    intro t _
    simp [trackMatches]
  rcases hfind : ((config.tracks.getD []).find? fun t =>
      trackMatches (labels.map strToLower) t.2) with _ | t
  · refine ⟨?_, ?_, ?_, hmatches_nil, ?_⟩ <;> simp [classifyIssue, hfind]
  · by_cases ht : t.1 = ""
    · refine ⟨?_, ?_, ?_, hmatches_nil, ?_⟩
      · simp [classifyIssue, hfind, ht]
      · simp [classifyIssue, hfind, ht]
      · simp [classifyIssue, hfind, ht]
      · intro h
        rw [hempty h] at hfind
        exact absurd hfind (by simp)
    · refine ⟨?_, ?_, ?_, hmatches_nil, ?_⟩
      · simp [classifyIssue, hfind, ht]
      · simp [classifyIssue, hfind, ht]
      · simp [classifyIssue, hfind, ht]
      · intro h
        rw [hempty h] at hfind
        exact absurd hfind (by simp)

theorem classify_invariants_witness :
    (classifyIssue { tracks := some [("bug", ["bug"])] } []).actions = [] ∧
    (classifyIssue { tracks := some [("bug", ["bug"])] } []).track = none :=
  ⟨(classify_invariants { tracks := some [("bug", ["bug"])] } []).1,
   (classify_invariants { tracks := some [("bug", ["bug"])] } []).2.2.2.2 rfl⟩

/-- C6: if a milestone with the exact desired title exists among the open
milestones returned by the lookup, `ensureMilestone` returns that milestone's
number and issues no create call; a create call is issued only when no open
milestone has the exact title. -/
theorem ensureMilestone_lookup_before_create (ref : RepoRef) (title : String)
    (env : GhEnv) (ms : List Milestone)
    (hlist : env.listMilestonesResult = Except.ok ms) :
    ((∃ m, m ∈ ms ∧ m.title = title) →
      (∃ n, findMilestoneByTitle ms title = some n ∧
        (ensureMilestoneM ref title env).2 = Except.ok n) ∧
      ∀ t, RemoteCall.createMilestone ref.owner ref.repo t ∉
        (ensureMilestoneM ref title env).1) ∧
    ((∃ t, RemoteCall.createMilestone ref.owner ref.repo t ∈
        (ensureMilestoneM ref title env).1) →
      ¬ ∃ m, m ∈ ms ∧ m.title = title) := by
  have hmem_iff : (∃ m, m ∈ ms ∧ m.title = title) ↔
      (findMilestoneByTitle ms title).isSome := by
    simp [findMilestoneByTitle, List.find?_isSome]
  have hchar : ∀ n, findMilestoneByTitle ms title = some n →
      ensureMilestoneM ref title env =
        ([RemoteCall.listMilestones ref.owner ref.repo], Except.ok n) := by
    intro n hf
    simp [ensureMilestoneM, listMilestonesM, hlist, hf]
  have hchar2 : findMilestoneByTitle ms title = none →
      ensureMilestoneM ref title env =
        ([RemoteCall.listMilestones ref.owner ref.repo,
          RemoteCall.createMilestone ref.owner ref.repo title],
         (createMilestoneM ref title env).2) := by
    intro hf
    simp [ensureMilestoneM, listMilestonesM, createMilestoneM, hlist, hf]
  cases hfind : findMilestoneByTitle ms title with
  | some n =>
    rw [hchar n hfind]
    constructor
    · intro _
      exact ⟨⟨n, rfl, rfl⟩, by intro t; simp⟩
    · rintro ⟨t, hmem⟩
      simp at hmem
  | none =>
    rw [hchar2 hfind]
    constructor
    · intro hex
      exfalso
      have := hmem_iff.mp hex
      rw [hfind] at this
      simp at this
    · intro _ hex
      have := hmem_iff.mp hex
      rw [hfind] at this
      simp at this

/-- An environment in which the lookup returns one open milestone named
"Bugfix Sprint" (number 3). -/
def envWithSprint : GhEnv :=
  { addLabelsResult := .ok (),
    listMilestonesResult := .ok [{ number := 3, title := "Bugfix Sprint" }],
    createMilestoneResult := .ok 7, updateIssueResult := .ok (),
    writeTelemetryResult := none }

theorem ensureMilestone_lookup_before_create_witness :
    (∃ n, findMilestoneByTitle [{ number := 3, title := "Bugfix Sprint" }]
        "Bugfix Sprint" = some n ∧
      (ensureMilestoneM { owner := "o", repo := "r" } "Bugfix Sprint"
        envWithSprint).2 = Except.ok n) ∧
    ∀ t, RemoteCall.createMilestone "o" "r" t ∉
      (ensureMilestoneM { owner := "o", repo := "r" } "Bugfix Sprint"
        envWithSprint).1 :=
  (ensureMilestone_lookup_before_create { owner := "o", repo := "r" }
    "Bugfix Sprint" envWithSprint [{ number := 3, title := "Bugfix Sprint" }]
    rfl).1 ⟨{ number := 3, title := "Bugfix Sprint" }, by simp, rfl⟩

/-- Severity of the error carried by a failed call result, if failed. -/
def exceptErrSeverity {α : Type} : Except TaskAssistantError α → Option String
  | .error e => some e.severity
  | .ok _ => none

/-- Cause carried by the error of a failed call result, if failed. -/
def exceptErrCause {α : Type} :
    Except TaskAssistantError α → Option (Option ExternalFailure)
  | .error e => some e.cause
  | .ok _ => none

/-- C8 counterexample: a failing milestone list call raises an error whose
severity tag is the literal `"github-api"`, not `"api"` as claimed. -/
theorem api_severity_counterexample :
    exceptErrSeverity (listMilestonesM { owner := "o", repo := "r" }
      envAllFail).2 = some "github-api" ∧
    exceptErrSeverity (listMilestonesM { owner := "o", repo := "r" }
      envAllFail).2 ≠ some "api" := by
  constructor <;> decide

/-- C8 (amended): for every failing external collaborator call (list
milestones, create milestone, attach milestone), the core raises an error
whose severity tag is exactly `"github-api"` and which carries the original
failure as its attached cause. -/
theorem api_error_wrapping (ref : RepoRef) (title : String) (inum mnum : Nat)
    (env : GhEnv) (e : ExternalFailure) :
    (env.listMilestonesResult = .error e →
      exceptErrSeverity (listMilestonesM ref env).2 = some "github-api" ∧
      exceptErrCause (listMilestonesM ref env).2 = some (some e)) ∧
    (env.createMilestoneResult = .error e →
      exceptErrSeverity (createMilestoneM ref title env).2 = some "github-api" ∧
      exceptErrCause (createMilestoneM ref title env).2 = some (some e)) ∧
    (env.updateIssueResult = .error e →
      exceptErrSeverity (attachMilestoneToIssueM ref inum mnum env).2 =
        some "github-api" ∧
      exceptErrCause (attachMilestoneToIssueM ref inum mnum env).2 =
        some (some e)) := by
  refine ⟨fun h => ?_, fun h => ?_, fun h => ?_⟩ <;>
    simp [listMilestonesM, createMilestoneM, attachMilestoneToIssueM,
      githubApiError, exceptErrSeverity, exceptErrCause, h]

theorem api_error_wrapping_witness :
    exceptErrSeverity (listMilestonesM { owner := "o", repo := "r" }
      envListFail).2 = some "github-api" ∧
    exceptErrCause (listMilestonesM { owner := "o", repo := "r" }
      envListFail).2 = some (some exBoom) :=
  (api_error_wrapping { owner := "o", repo := "r" } "t" 1 2 envListFail
    exBoom).1 rfl

/-- C9: the non-debug display of an engine error depends only on its
severity, message and detail map — two errors identical except in their
causal error (or its stack) render identically, so stack/causal information
appears only in explicit debug output. -/
theorem toDisplay_nondebug_cause_independent (e₁ e₂ : TaskAssistantError)
    (hsev : e₁.severity = e₂.severity) (hmsg : e₁.message = e₂.message)
    (hdet : e₁.details = e₂.details) :
    toDisplay e₁ false = toDisplay e₂ false := by
  simp [toDisplay, hsev, hmsg, hdet]

theorem toDisplay_nondebug_cause_independent_witness :
    toDisplay
      { severity := "github-api", message := "m", cause := some exBoom,
        details := some [("op", "listMilestones")] } false =
    toDisplay
      { severity := "github-api", message := "m", cause := none,
        details := some [("op", "listMilestones")] } false :=
  toDisplay_nondebug_cause_independent _ _ rfl rfl rfl

/-- C5: with `selfHealing.enabled = false` the orchestrator issues zero
remote calls, the classification (hence the actions list) remains exactly the
state produced by the classifier, and the final milestone title is the
issue's current milestone title. -/
theorem run_selfHealing_disabled (config : TaskAssistantConfig)
    (issue : Issue) (env : GhEnv) (te : Bool) (gAt owner repo : String)
    (sh : SelfHealingConfig) (hsh : config.selfHealing = some sh)
    (hen : sh.enabled = some false) :
    (runModel config issue env te gAt owner repo).calls = [] ∧
    (runModel config issue env te gAt owner repo).classification =
      classifyIssue config issue.labels ∧
    (runModel config issue env te gAt owner repo).finalMilestoneTitle =
      issue.milestoneTitle := by
  have hrun : runModel config issue env te gAt owner repo =
      finishRun config issue env te gAt owner repo []
        (classifyIssue config issue.labels) issue.milestoneTitle := by
    unfold runModel runAfterTrackFix
    rw [hsh]
    simp [hen, optBoolTruthy]
  rw [hrun]
  exact ⟨(finishRun_fields config issue env te gAt owner repo []
      (classifyIssue config issue.labels) issue.milestoneTitle).1,
    (finishRun_fields config issue env te gAt owner repo []
      (classifyIssue config issue.labels) issue.milestoneTitle).2.1,
    (finishRun_fields config issue env te gAt owner repo []
      (classifyIssue config issue.labels) issue.milestoneTitle).2.2.1⟩

/-- A configuration whose self-healing section is present with
`enabled: false`. -/
def cfgHealingOff : TaskAssistantConfig :=
  { tracks := some [("bug", ["bug"])],
    selfHealing := some
      { enabled := some false, fixMissingTrack := some true,
        fixMissingMilestone := some true },
    milestones := some [("bug", { title := "Bugfix Sprint" })] }

theorem run_selfHealing_disabled_witness :
    (runModel cfgHealingOff scenarioAIssue envAllOk true "T" "o" "r").calls
      = [] ∧
    (runModel cfgHealingOff scenarioAIssue envAllOk true "T" "o"
      "r").classification =
      classifyIssue cfgHealingOff scenarioAIssue.labels ∧
    (runModel cfgHealingOff scenarioAIssue envAllOk true "T" "o"
      "r").finalMilestoneTitle = scenarioAIssue.milestoneTitle :=
  run_selfHealing_disabled cfgHealingOff scenarioAIssue envAllOk true "T" "o"
    "r" _ rfl rfl

theorem milestoneStep_dichotomy (config : TaskAssistantConfig) (issue : Issue)
    (env : GhEnv) (te : Bool) (gAt owner repo : String)
    (calls : List RemoteCall) (cls : IssueClassification)
    (finalM : Option String) :
    (milestoneStep config issue env te gAt owner repo calls cls
      finalM).error = none ∨
    ((milestoneStep config issue env te gAt owner repo calls cls
        finalM).telemetry = none ∧
      (milestoneStep config issue env te gAt owner repo calls cls
        finalM).result = none) := by
  simp only [milestoneStep]
  repeat' split
  all_goals first
    | exact Or.inl rfl
    | exact Or.inr ⟨rfl, rfl⟩

theorem runAfterTrackFix_dichotomy (config : TaskAssistantConfig)
    (issue : Issue) (env : GhEnv) (te : Bool) (gAt owner repo : String)
    (calls : List RemoteCall) (cls : IssueClassification) :
    (runAfterTrackFix config issue env te gAt owner repo calls cls).error =
      none ∨
    ((runAfterTrackFix config issue env te gAt owner repo calls
        cls).telemetry = none ∧
      (runAfterTrackFix config issue env te gAt owner repo calls
        cls).result = none) := by
  simp only [runAfterTrackFix]
  split
  · exact milestoneStep_dichotomy _ _ _ _ _ _ _ _ _ _
  · exact Or.inl rfl

theorem runModel_dichotomy (config : TaskAssistantConfig) (issue : Issue)
    (env : GhEnv) (te : Bool) (gAt owner repo : String) :
    (runModel config issue env te gAt owner repo).error = none ∨
    ((runModel config issue env te gAt owner repo).telemetry = none ∧
      (runModel config issue env te gAt owner repo).result = none) := by
  simp only [runModel]
  repeat' split
  all_goals first
    | exact Or.inr ⟨rfl, rfl⟩
    | exact runAfterTrackFix_dichotomy _ _ _ _ _ _ _ _ _

/-- C1 (amended): when an orchestrator remote-call step fails, the error
propagates to the top-level catch and the telemetry assembly step does not
execute — no payload is handed to the persistence collaborator and no result
is emitted. -/
theorem run_error_skips_telemetry (config : TaskAssistantConfig)
    (issue : Issue) (env : GhEnv) (te : Bool) (gAt owner repo : String)
    (h : (runModel config issue env te gAt owner repo).error.isSome) :
    (runModel config issue env te gAt owner repo).telemetry = none ∧
    (runModel config issue env te gAt owner repo).result = none := by
  rcases runModel_dichotomy config issue env te gAt owner repo with h0 | h0
  · rw [h0] at h
    simp at h
  · exact h0

theorem run_error_skips_telemetry_witness :
    (runModel cfgMilestoneRepair scenarioAIssue envListFail true "T" "o"
      "r").telemetry = none ∧
    (runModel cfgMilestoneRepair scenarioAIssue envListFail true "T" "o"
      "r").result = none :=
  run_error_skips_telemetry cfgMilestoneRepair scenarioAIssue envListFail
    true "T" "o" "r" (by decide)

/-- C1 counterexample: a run in which the milestone lookup call fails — a
remote call was issued and the run ends with a caught error, yet no telemetry
payload is handed to the persistence collaborator, contradicting the claim
that telemetry assembly still executes. -/
theorem run_remote_failure_counterexample :
    (runModel cfgMilestoneRepair scenarioAIssue envListFail true "T" "o"
      "r").error.isSome = true ∧
    (runModel cfgMilestoneRepair scenarioAIssue envListFail true "T" "o"
      "r").calls = [RemoteCall.listMilestones "o" "r"] ∧
    (runModel cfgMilestoneRepair scenarioAIssue envListFail true "T" "o"
      "r").telemetry = none := by
  refine ⟨?_, ?_, ?_⟩ <;> decide

/-- C3 counterexample: on a `null` document the normalizer returns the empty
configuration — every structural section (`tracks`, `milestone_rules`,
`selfHealing`, `telemetry`) is absent, so downstream components do observe
`undefined` for structural fields. -/
theorem loadConfig_missing_fields_counterexample :
    (loadConfigDoc ConfigValue.null).tracks = none ∧
    (loadConfigDoc ConfigValue.null).milestone_rules = none ∧
    (loadConfigDoc ConfigValue.null).selfHealing = none ∧
    (loadConfigDoc ConfigValue.null).telemetry = none := by
  refine ⟨?_, ?_, ?_, ?_⟩ <;> decide

theorem validateTelemetry_fully_populated (v : Option ConfigValue) :
    ∃ e p, validateTelemetry v =
      { enabled := some e, path := some p } := by
  unfold validateTelemetry
  split
  · exact ⟨true, "telemetry", rfl⟩
  · split
    · exact ⟨true, "telemetry", rfl⟩
    · exact ⟨_, _, rfl⟩

/-- C3 (amended): the normalizer is a total function (it never throws), but
structural fields can be absent rather than defaulted: a falsy or non-object
document yields the empty configuration with all four sections absent, and
for a document passing the object guard the `selfHealing` section object and
a fully-populated `telemetry` section (both `enabled` and `path` present and
typed) are guaranteed, while `tracks` and `milestone_rules` (and the
self-healing sub-flags) may still be absent. -/
theorem loadConfig_total_with_partial_defaults (doc : ConfigValue) :
    ((¬ jsTruthy doc = true ∨ ¬ jsIsObjectType doc = true) →
      loadConfigDoc doc = {}) ∧
    ((jsTruthy doc = true ∧ jsIsObjectType doc = true) →
      (∃ sh, (loadConfigDoc doc).selfHealing = some sh) ∧
      ∃ e p, (loadConfigDoc doc).telemetry =
        some { enabled := some e, path := some p }) := by
  constructor
  · intro h
    rw [loadConfigDoc, if_pos h]
  · rintro ⟨h1, h2⟩
    rw [loadConfigDoc, if_neg (by push_neg; exact ⟨h1, h2⟩)]
    refine ⟨⟨_, rfl⟩, ?_⟩
    obtain ⟨e, p, hep⟩ := validateTelemetry_fully_populated
      (objGet ((entriesOf doc).map fun kv => (normalizeKey kv.1, kv.2))
        "telemetry")
    exact ⟨e, p, congrArg some hep⟩

theorem loadConfig_total_with_partial_defaults_witness :
    loadConfigDoc ConfigValue.null = {} ∧
    ((∃ sh, (loadConfigDoc (ConfigValue.obj [])).selfHealing = some sh) ∧
      ∃ e p, (loadConfigDoc (ConfigValue.obj [])).telemetry =
        some { enabled := some e, path := some p }) :=
  ⟨(loadConfig_total_with_partial_defaults ConfigValue.null).1
      (Or.inl (by decide)),
   (loadConfig_total_with_partial_defaults (ConfigValue.obj [])).2
      ⟨by decide, by decide⟩⟩

/-- C2: evaluation of the §8 scenario-A pipeline on the code.  The camelCase
keys `milestoneRules` and `selfHealing` are dropped as unknown (the key
normalizer only rewrites hyphens, contrary to its own comment listing
`selfHealing` as an equivalent variant), and `inferMilestoneTitle` reads the
never-assigned `milestones` field, so with every remote call succeeding the
run yields `track = "bug"` but `actions = []`, `milestone = null` and zero
remote calls — not the claimed
`actions = [apply-track-label:track:bug, set-milestone:Bugfix Sprint]` and
`milestone = "Bugfix Sprint"`. -/
theorem scenarioA_actual_behavior :
    (loadConfigDoc scenarioADoc).tracks = some [("bug", ["bug"])] ∧
    (loadConfigDoc scenarioADoc).milestone_rules = none ∧
    (loadConfigDoc scenarioADoc).selfHealing =
      some { enabled := none, fixMissingTrack := none,
             fixMissingMilestone := none } ∧
    (runModel (loadConfigDoc scenarioADoc) scenarioAIssue envAllOk true
        "2026-01-03T00:00:00Z" "octo" "website").result =
      some { track := some "bug", actions := [], milestone := none,
             telemetryFile := some "telemetry/issue-42.json" } ∧
    (runModel (loadConfigDoc scenarioADoc) scenarioAIssue envAllOk true
        "2026-01-03T00:00:00Z" "octo" "website").calls = [] := by
  refine ⟨?_, ?_, ?_, ?_, ?_⟩ <;> decide
